import Mathlib

/-!
Verification of `eggo/director.py`: orchestration of a Cloudera-Director-managed
Hadoop/Spark cluster on EC2 (stack provisioning, instance discovery by tags,
configuration, teardown).

The embedding models cloud state as a list of tagged instances, the Cloudera
Manager control plane as a small record structure, and each orchestration
function of the source as a pure function that returns its result together with
the trace of side effects it performs (instance launches, tag writes, remote
command executions, tunnel operations, control-plane commands).  Fallible
operations (Python exceptions: `IndexError` from `[0]` on empty match lists,
`EggoError` on bad operator input, `KeyError` from `%`-interpolation) are
modelled with `Option` / explicit result types.
-/

namespace Eggo

/-- An EC2 instance: public and private IP addresses plus its key/value tags.
Tags are an association list looked up by key (EC2 tags are a map, so the
lookup of a key is single-valued). -/
structure Instance where
  ip_address : String
  private_ip_address : String
  tags : List (String × String)
deriving Repr, DecidableEq

/-- Does instance `i` carry every tag in `filters` (key present with exactly the
given value)? -/
def matchesFilters (filters : List (String × String)) (i : Instance) : Bool :=
  filters.all (fun kv => i.tags.lookup kv.1 == some kv.2)

/-- Modelled from the spec: `get_tagged_instances` from `eggo.aws` is not under
`src/`; per the spec all discovery is tag-based querying returning the matching
instances in provider order, side-effect free.  The world (EC2 account state) is
the list of instances in provider order. -/
def get_tagged_instances (world : List Instance) (filters : List (String × String)) :
    List Instance :=
  world.filter (matchesFilters filters)

/-- The tag filter used for the launcher node of a stack
(`director.py` lines 73-75). -/
def launcherFilters (stack_name : String) : List (String × String) :=
  [("eggo_stack_name", stack_name), ("eggo_node_type", "launcher")]

/-- The tag filter used for the manager node of a stack
(`director.py` lines 161-162). -/
def managerFilters (stack_name : String) : List (String × String) :=
  [("eggo_stack_name", stack_name), ("eggo_node_type", "manager")]

/-- The tag filter used for the master node of a stack
(`director.py` lines 166-167). -/
def masterFilters (stack_name : String) : List (String × String) :=
  [("eggo_stack_name", stack_name), ("eggo_node_type", "master")]

/-- The tag filter used for the worker nodes of a stack
(`director.py` lines 171-172). -/
def workerFilters (stack_name : String) : List (String × String) :=
  [("eggo_stack_name", stack_name), ("eggo_node_type", "worker")]

/-- `get_launcher_instance` (`director.py` lines 155-157): indexes `[0]` into
the match list; `none` models the `IndexError` raised when no instance matches. -/
def get_launcher_instance (world : List Instance) (stack_name : String) : Option Instance :=
  (get_tagged_instances world (launcherFilters stack_name)).head?

/-- `get_manager_instance` (`director.py` lines 160-162). -/
def get_manager_instance (world : List Instance) (stack_name : String) : Option Instance :=
  (get_tagged_instances world (managerFilters stack_name)).head?

/-- `get_master_instance` (`director.py` lines 165-167). -/
def get_master_instance (world : List Instance) (stack_name : String) : Option Instance :=
  (get_tagged_instances world (masterFilters stack_name)).head?

/-- `get_worker_instances` (`director.py` lines 170-172): returns all matches. -/
def get_worker_instances (world : List Instance) (stack_name : String) : List Instance :=
  get_tagged_instances world (workerFilters stack_name)

/-- Ambient configuration read by `director.py` through `getpass.getuser` and
`eggo.config` getters (access keys, EC2 key pair, private key file). -/
structure Config where
  user : String
  ec2_key_pair : String
  aws_access_key_id : String
  aws_secret_access_key : String
  private_key_file : String
deriving Repr, DecidableEq

/-- A Cloudera Manager role config group: carries its role type and a name
distinguishing it from other groups of the same service. -/
structure RoleConfigGroup where
  name : String
  roleType : String
deriving Repr, DecidableEq

/-- A Cloudera Manager service (e.g. the YARN service), with its type and its
role config groups in API-returned order. -/
structure CmService where
  type : String
  role_config_groups : List RoleConfigGroup
deriving Repr, DecidableEq

/-- A Cloudera Manager host record: physical memory in bytes and core count. -/
structure CmHost where
  totalPhysMemBytes : Nat
  numCores : Nat
deriving Repr, DecidableEq

/-- A Cloudera Manager cluster with its services in API-returned order. -/
structure CmCluster where
  services : List CmService
deriving Repr, DecidableEq

/-- The Cloudera Manager control-plane state visible through the API:
clusters and hosts in API-returned order. -/
structure CmState where
  clusters : List CmCluster
  hosts : List CmHost
deriving Repr, DecidableEq

/-- Side effects performed by the orchestration functions, in program order. -/
inductive Effect where
  /-- `ec2_conn.run_instances` of an AMI with a key pair and instance type
  (the launched instance's public IP identifies it in the trace). -/
  | runInstances (ami keyName instance_type ip : String)
  /-- `instance.add_tag(key, value)` on the instance with the given IP. -/
  | addTag (ip key value : String)
  /-- `wait_for_instance_state`: poll the instance until it reaches `state`. -/
  | waitForInstanceState (ip state : String)
  /-- `instance.terminate()`. -/
  | terminateInstance (ip : String)
  /-- `execute(op, hosts=...)`: fabric remote execution of the named operation
  on the given hosts; `par` records whether the operation is `@parallel`. -/
  | fabricExecute (opName : String) (par : Bool) (hosts : List String)
  /-- `put` of a named file to the connected host. -/
  | putFile (name : String)
  /-- `run` of a shell command on the connected host. -/
  | runCmd (cmd : String)
  /-- `delete_stack` on the CloudFormation stack. -/
  | deleteStack (stack_name : String)
  /-- A Cloudera Manager API command that is `.wait()`ed to completion. -/
  | cmCommandWait (name : String)
  /-- `group.update_config(config)` on a role config group; integer config
  values only (the memory/vcore limits written by the source). -/
  | cmUpdateConfig (group : RoleConfigGroup) (config : List (String × Nat))
  /-- `cluster.deploy_client_config().wait()`. -/
  | cmDeployClientConfigWait
  /-- `cluster.restart().wait()`. -/
  | cmRestartClusterWait
  /-- `non_blocking_tunnel`: local port forwarded through `host` to
  `private_ip:remote_port`. -/
  | openTunnel (host private_ip : String) (remote_port local_port : Nat)
  /-- `tunnel.wait()`; `raised` records whether the wait ended by exception or
  operator interrupt rather than normal return. -/
  | tunnelWait (local_port : Nat) (raised : Bool)
  /-- `tunnel.terminate()`. -/
  | tunnelTerminate (local_port : Nat)
deriving Repr, DecidableEq

/-- The launcher instance as it stands after the four `add_tag` calls of
`create_launcher_instance` (`director.py` lines 95-98); a freshly run EC2
instance carries no tags before these. -/
def launcherTagged (cfg : Config) (stack_name fresh_ip fresh_private_ip : String) : Instance :=
  { ip_address := fresh_ip
    private_ip_address := fresh_private_ip
    tags := [("owner", cfg.user), ("ec2_key_pair", cfg.ec2_key_pair),
             ("eggo_stack_name", stack_name), ("eggo_node_type", "launcher")] }

/-- `create_launcher_instance` (`director.py` lines 71-102).  If an instance
tagged `eggo_stack_name=stack_name, eggo_node_type=launcher` exists, the first
match is returned and nothing else happens.  Otherwise a fresh instance (public
IP `fresh_ip`, private IP `fresh_private_ip`, untagged at launch) is run, the
four tags are added, its running state is awaited, and the director client and
private key are installed on it.  Returns the launcher instance, the new world,
and the effect trace. -/
def create_launcher_instance (cfg : Config) (world : List Instance)
    (stack_name launcher_ami launcher_instance_type fresh_ip fresh_private_ip : String) :
    Instance × List Instance × List Effect :=
  match get_tagged_instances world (launcherFilters stack_name) with
  | i :: _ => (i, world, [])
  | [] =>
    let tagged : Instance := launcherTagged cfg stack_name fresh_ip fresh_private_ip
    (tagged, world ++ [tagged],
     [Effect.runInstances launcher_ami cfg.ec2_key_pair launcher_instance_type fresh_ip,
      Effect.addTag fresh_ip "owner" cfg.user,
      Effect.addTag fresh_ip "ec2_key_pair" cfg.ec2_key_pair,
      Effect.addTag fresh_ip "eggo_stack_name" stack_name,
      Effect.addTag fresh_ip "eggo_node_type" "launcher",
      Effect.waitForInstanceState fresh_ip "running",
      Effect.fabricExecute "install_director_client" false [fresh_ip],
      Effect.fabricExecute "install_private_key" false [fresh_ip]])

/-- Number of instances tagged as the launcher of stack `s`. -/
def launcherCount (world : List Instance) (s : String) : Nat :=
  (get_tagged_instances world (launcherFilters s)).length

/-- Outcome of `login` (`director.py` lines 184-195): an `EggoError` on an
invalid node name, the `IndexError` raised while resolving a missing singleton
instance, or an opened shell (the only outcome with remote effects). -/
inductive LoginResult where
  | eggoError (msg : String)
  | resolutionError
  | shell (effects : List Effect)
deriving Repr, DecidableEq

/-- `login` (`director.py` lines 184-195): dispatch on the `node` argument;
`master`, `manager` and `launcher` resolve the correspondingly tagged instance
and open a shell on it; any other value raises `EggoError` before any remote
action. -/
def login (world : List Instance) (stack_name node : String) : LoginResult :=
  if node = "master" then
    match get_master_instance world stack_name with
    | none => LoginResult.resolutionError
    | some i => LoginResult.shell [Effect.fabricExecute "open_shell" false [i.ip_address]]
  else if node = "manager" then
    match get_manager_instance world stack_name with
    | none => LoginResult.resolutionError
    | some i => LoginResult.shell [Effect.fabricExecute "open_shell" false [i.ip_address]]
  else if node = "launcher" then
    match get_launcher_instance world stack_name with
    | none => LoginResult.resolutionError
    | some i => LoginResult.shell [Effect.fabricExecute "open_shell" false [i.ip_address]]
  else
    LoginResult.eggoError ("\"" ++ node ++ "\" is not a valid node type")

mutual

/-- Python `template % params` for the `%(key)s` mapping-interpolation subset
used by `run_director_bootstrap` (`director.py` line 121): scans the template
character by character; `%(` starts a named placeholder, `%%` renders a literal
percent, any other `%`-escape is a format error (`none`); a missing key is a
`KeyError` (`none`). -/
def pyInterpolate (params : List (String × String)) : List Char → Option (List Char)
  | [] => some []
  | c :: rest =>
    if c = '%' then
      match rest with
      | [] => none
      | c2 :: rest2 =>
        if c2 = '(' then pyInterpolateKey params [] rest2
        else if c2 = '%' then
          match pyInterpolate params rest2 with
          | none => none
          | some t => some ('%' :: t)
        else none
    else
      match pyInterpolate params rest with
      | none => none
      | some t => some (c :: t)
termination_by l => l.length

/-- Helper for `pyInterpolate`: accumulate the placeholder key up to the first
`)`, require the `s` conversion, substitute the parameter value verbatim. -/
def pyInterpolateKey (params : List (String × String)) (acc : List Char) :
    List Char → Option (List Char)
  | [] => none
  | c :: rest =>
    if c = ')' then
      match rest with
      | [] => none
      | c2 :: rest2 =>
        if c2 = 's' then
          match params.lookup (String.mk acc) with
          | none => none
          | some v =>
            match pyInterpolate params rest2 with
            | none => none
            | some t => some (v.toList ++ t)
        else none
    else pyInterpolateKey params (acc ++ [c]) rest
termination_by l => l.length

end

/-- A bootstrap configuration template, structured: literal text interleaved
with named `%(key)s` placeholders. -/
inductive TPart where
  | lit (s : List Char)
  | hole (key : String)
deriving Repr, DecidableEq

/-- The concrete text of a structured template: a hole `key` reads
`%(key)s`. -/
def tmplChars : List TPart → List Char
  | [] => []
  | TPart.lit s :: r => s ++ tmplChars r
  | TPart.hole k :: r => '%' :: '(' :: (k.toList ++ ')' :: 's' :: tmplChars r)

/-- Specification-level rendering of a structured template: each hole is
replaced by the exact parameter value, literals pass through unchanged; a hole
whose key is missing from the parameters fails. -/
def renderParts (params : List (String × String)) : List TPart → Option (List Char)
  | [] => some []
  | TPart.lit s :: r =>
    match renderParts params r with
    | none => none
    | some t => some (s ++ t)
  | TPart.hole k :: r =>
    match params.lookup k with
    | none => none
    | some v =>
      match renderParts params r with
      | none => none
      | some t => some (v.toList ++ t)

/-- The parameter mapping built by `run_director_bootstrap`
(`director.py` lines 109-119): the eleven named values interpolated into the
director configuration template.  `num_workers` is an integer in the source and
renders via `%s` as its decimal representation. -/
def bootstrapParams (cfg : Config) (region stack_name subnetId securityGroupsIds
    cluster_ami : String) (num_workers : Nat) (worker_instance_type : String) :
    List (String × String) :=
  [("accessKeyId", cfg.aws_access_key_id),
   ("secretAccessKey", cfg.aws_secret_access_key),
   ("region", region),
   ("stack_name", stack_name),
   ("owner", cfg.user),
   ("keyName", cfg.ec2_key_pair),
   ("subnetId", subnetId),
   ("securityGroupsIds", securityGroupsIds),
   ("image", cluster_ami),
   ("num_workers", toString num_workers),
   ("worker_instance_type", worker_instance_type)]

/-- `run_director_bootstrap` (`director.py` lines 105-125): interpolate the
template with the eleven parameters, upload the rendered file as
`director.conf`, run the bootstrap command.  Returns the rendered body and the
effect trace; `none` models the interpolation raising (missing key or bad
placeholder syntax). -/
def run_director_bootstrap (cfg : Config) (region stack_name subnetId
    securityGroupsIds cluster_ami : String) (num_workers : Nat)
    (worker_instance_type : String) (template : List Char) :
    Option (List Char × List Effect) :=
  match pyInterpolate
      (bootstrapParams cfg region stack_name subnetId securityGroupsIds
        cluster_ami num_workers worker_instance_type) template with
  | none => none
  | some body =>
    some (body, [Effect.putFile "director.conf",
                 Effect.runCmd "cloudera-director bootstrap director.conf"])

/-- The tunnel opened by `cm_tunnel_ctx` (`director.py` lines 52-57): local
port 64999 forwarded through the manager's public IP to its private IP port
7180.  Modelled from the spec: `tunnel_ctx` from `eggo.util` is not under
`src/`; per the spec a scoped tunnel is opened, used, then guaranteed closed on
scope exit. -/
def cm_tunnel_open (manager : Instance) : Effect :=
  Effect.openTunnel manager.ip_address manager.private_ip_address 7180 64999

/-- Closing of the scoped `cm_tunnel_ctx` tunnel on context exit. -/
def cm_tunnel_close : Effect :=
  Effect.tunnelTerminate 64999

/-- Megabytes computed by `adjust_yarn_memory_limits` from a host's physical
memory: `int(totalPhysMemBytes / 1024. / 1024.)`, i.e. the floor of the byte
count divided by 2^20 (exact rational floor; IEEE rounding of the intermediate
floats is out of scope). -/
def memLimitMb (host : CmHost) : Nat :=
  host.totalPhysMemBytes / 1024 / 1024

/-- `adjust_yarn_memory_limits` (`director.py` lines 463-488): select the first
cluster and first host, the first service of type `YARN`, the first
`RESOURCEMANAGER` and first `NODEMANAGER` role config groups; update both
groups' memory/vcore limits from the host, deploy client config (awaited), and
restart the cluster (awaited) when `restart` is set.  `none` models the
`IndexError` raised when any first-match selection finds nothing. -/
def adjust_yarn_memory_limits (st : CmState) (restart : Bool) : Option (List Effect) :=
  match st.clusters.head?, st.hosts.head? with
  | some cluster, some host =>
    match (cluster.services.filter (fun x => x.type == "YARN")).head? with
    | none => none
    | some yarn =>
      match (yarn.role_config_groups.filter
              (fun x => x.roleType == "RESOURCEMANAGER")).head?,
            (yarn.role_config_groups.filter
              (fun x => x.roleType == "NODEMANAGER")).head? with
      | some rm_cg, some nm_cg =>
        some ([Effect.cmUpdateConfig rm_cg
                 [("yarn_scheduler_maximum_allocation_mb", memLimitMb host),
                  ("yarn_scheduler_maximum_allocation_vcores", host.numCores)],
               Effect.cmUpdateConfig nm_cg
                 [("yarn_nodemanager_resource_memory_mb", memLimitMb host),
                  ("yarn_nodemanager_resource_cpu_vcores", host.numCores)],
               Effect.cmDeployClientConfigWait] ++
              (if restart then [Effect.cmRestartClusterWait] else []))
      | _, _ => none
  | _, _ => none

/-- The cluster instances targeted by the fan-out steps of `install_java_8`
(`director.py` lines 271-276): the stack's workers plus the manager and master
instances. -/
def install_java_8_cluster_instances (world : List Instance) (stack_name : String) :
    Option (List Instance) :=
  match get_manager_instance world stack_name, get_master_instance world stack_name with
  | some manager, some master =>
    some (get_worker_instances world stack_name ++ [manager, master])
  | _, _ => none

/-- `install_java_8` (`director.py` lines 268-344) as its effect trace: scoped
CM tunnel around stopping the management service and the cluster (each
awaited); stop agents on all cluster hosts (parallel); stop the manager server;
remove old JDKs and install JDK 8 on all cluster hosts (parallel); start the
server; start the agents (parallel); scoped CM tunnel around starting the
cluster and the management service (each awaited).  `none` models the
`IndexError` raised when the manager or master cannot be resolved. -/
def install_java_8 (world : List Instance) (stack_name : String) : Option (List Effect) :=
  match get_manager_instance world stack_name, get_master_instance world stack_name with
  | some manager, some master =>
    let cluster_instances := get_worker_instances world stack_name ++ [manager, master]
    let cluster_hosts := cluster_instances.map Instance.ip_address
    some [cm_tunnel_open manager,
          Effect.cmCommandWait "stop_mgmt_service",
          Effect.cmCommandWait "stop_cluster",
          cm_tunnel_close,
          Effect.fabricExecute "stop_cm_agents" true cluster_hosts,
          Effect.fabricExecute "stop_cm_server" false [manager.ip_address],
          Effect.fabricExecute "swap_jdks" true cluster_hosts,
          Effect.fabricExecute "start_cm_server" false [manager.ip_address],
          Effect.fabricExecute "start_cm_agents" true cluster_hosts,
          cm_tunnel_open manager,
          Effect.cmCommandWait "start_cluster",
          Effect.cmCommandWait "start_mgmt_service",
          cm_tunnel_close]
  | _, _ => none

/-- `terminate_launcher_instance` (`director.py` lines 248-251): resolve the
launcher, terminate it, poll until it reaches the `terminated` state. -/
def terminate_launcher_instance (world : List Instance) (stack_name : String) :
    Option (List Effect) :=
  match get_launcher_instance world stack_name with
  | none => none
  | some launcher =>
    some [Effect.terminateInstance launcher.ip_address,
          Effect.waitForInstanceState launcher.ip_address "terminated"]

/-- `teardown` (`director.py` lines 254-265): run the auto-confirmed
`cloudera-director terminate` on the launcher, terminate the launcher instance
(polled), delete the CloudFormation stack.  `director_terminate_ok` records
whether the remote terminate command succeeds; on failure the raised remote
error aborts the flow, so the returned trace stops after step 1 and the flag
marks the teardown incomplete.  `none` models the `IndexError` when no
launcher is tagged for the stack. -/
def teardown (world : List Instance) (stack_name : String)
    (director_terminate_ok : Bool) : Option (List Effect × Bool) :=
  match get_launcher_instance world stack_name with
  | none => none
  | some launcher =>
    let step1 := Effect.fabricExecute "run_director_terminate" false [launcher.ip_address]
    if director_terminate_ok then
      match terminate_launcher_instance world stack_name with
      | none => none
      | some t2 => some (step1 :: (t2 ++ [Effect.deleteStack stack_name]), true)
    else
      some ([step1], false)

/-- `web_proxy` (`director.py` lines 198-240): resolve manager and master
(workers are fetched too but unused), open three non-blocking tunnels (CM web
UI on the manager, YARN RM and YARN JobHistory on the master), block waiting on
the last opened tunnel, and in the `finally` block terminate every opened
tunnel.  `wait_raised` records whether the wait ended by exception or operator
interrupt; the `finally` clause runs either way. -/
def web_proxy (world : List Instance) (stack_name : String) (wait_raised : Bool) :
    Option (List Effect) :=
  match get_manager_instance world stack_name, get_master_instance world stack_name with
  | some manager, some master =>
    some [Effect.openTunnel manager.ip_address manager.private_ip_address 7180 7180,
          Effect.openTunnel master.ip_address master.private_ip_address 8088 8088,
          Effect.openTunnel master.ip_address master.private_ip_address 19888 19888,
          Effect.tunnelWait 19888 wait_raised,
          Effect.tunnelTerminate 7180,
          Effect.tunnelTerminate 8088,
          Effect.tunnelTerminate 19888]
  | _, _ => none

/-- A world with a single manager instance for stack `demo` and nothing else,
used to instantiate the locator theorems concretely. -/
def exampleManager : Instance :=
  { ip_address := "54.0.0.2"
    private_ip_address := "10.0.0.2"
    tags := [("eggo_stack_name", "demo"), ("eggo_node_type", "manager")] }

/-- A launcher instance tagged for stack `demo`, used in concrete witnesses. -/
def exampleLauncher : Instance :=
  { ip_address := "54.0.0.1"
    private_ip_address := "10.0.0.1"
    tags := [("owner", "alice"), ("ec2_key_pair", "kp"),
             ("eggo_stack_name", "demo"), ("eggo_node_type", "launcher")] }

/-- A master instance tagged for stack `demo`, used in concrete witnesses. -/
def exampleMaster : Instance :=
  { ip_address := "54.0.0.3"
    private_ip_address := "10.0.0.3"
    tags := [("eggo_stack_name", "demo"), ("eggo_node_type", "master")] }

/-- A worker instance tagged for stack `demo`, used in concrete witnesses. -/
def exampleWorker : Instance :=
  { ip_address := "54.0.0.4"
    private_ip_address := "10.0.0.4"
    tags := [("eggo_stack_name", "demo"), ("eggo_node_type", "worker")] }

/-- A concrete ambient configuration, used in concrete witnesses. -/
def exampleConfig : Config :=
  { user := "alice"
    ec2_key_pair := "kp"
    aws_access_key_id := "AKIA"
    aws_secret_access_key := "SECRET"
    private_key_file := "id.pem" }

/-- A small concrete director configuration template, used in witnesses:
literal text around `num_workers` and `worker_instance_type` placeholders. -/
def exampleTemplate : List TPart :=
  [TPart.lit ("workers: ".toList),
   TPart.hole "num_workers",
   TPart.lit (" type: ".toList),
   TPart.hole "worker_instance_type"]

/-- A one-cluster CM state with a YARN service holding one RESOURCEMANAGER and
one NODEMANAGER group and a 4 GiB / 4-core host, for concrete witnesses. -/
def exampleCmState : CmState :=
  { clusters := [{ services :=
      [{ type := "HDFS", role_config_groups := [] },
       { type := "YARN", role_config_groups :=
         [{ name := "yarn-RESOURCEMANAGER-BASE", roleType := "RESOURCEMANAGER" },
          { name := "yarn-NODEMANAGER-BASE", roleType := "NODEMANAGER" }] }] }]
    hosts := [{ totalPhysMemBytes := 4294967296, numCores := 4 }] }

/-- C2: for each singleton node type (launcher, manager, master), locating the
instance when no instance carries the matching tags yields the error outcome
(`none`, the `IndexError` from `[0]`), never an empty-but-successful result;
and when matches exist the first match in provider order is returned. -/
theorem singleton_locators_error_on_no_match (world : List Instance) (s : String) :
    (get_launcher_instance world s = none ↔
      get_tagged_instances world (launcherFilters s) = []) ∧
    (get_manager_instance world s = none ↔
      get_tagged_instances world (managerFilters s) = []) ∧
    (get_master_instance world s = none ↔
      get_tagged_instances world (masterFilters s) = []) ∧
    (∀ i rest, get_tagged_instances world (launcherFilters s) = i :: rest →
      get_launcher_instance world s = some i) ∧
    (∀ i rest, get_tagged_instances world (managerFilters s) = i :: rest →
      get_manager_instance world s = some i) ∧
    (∀ i rest, get_tagged_instances world (masterFilters s) = i :: rest →
      get_master_instance world s = some i) := by
  refine ⟨?_, ?_, ?_, ?_, ?_, ?_⟩ <;>
    simp [get_launcher_instance, get_manager_instance, get_master_instance,
      List.head?_eq_none_iff] <;>
    intro i rest h <;> simp [h]

/-- Witness for C2 at a concrete world: one manager tagged for stack `demo`;
the launcher and master locators error out, the manager locator returns it. -/
theorem singleton_locators_error_on_no_match_witness :
    get_launcher_instance [exampleManager] "demo" = none ∧
    get_manager_instance [exampleManager] "demo" = some exampleManager := by
  have h := singleton_locators_error_on_no_match [exampleManager] "demo"
  exact ⟨h.1.mpr (by decide), h.2.2.2.2.1 exampleManager [] (by decide)⟩

/-- C1: launcher creation is idempotent.  If a tagged launcher already exists,
`create_launcher_instance` returns the first match and launches nothing new
(empty effect trace, world unchanged); consequently, starting from a world
obeying the at-most-one-launcher invariant, two invocations with no teardown in
between leave exactly one tagged launcher instance for the stack. -/
theorem create_launcher_instance_idempotent (cfg : Config) (world : List Instance)
    (s ami itype ip1 pip1 ip2 pip2 : String)
    (h : launcherCount world s ≤ 1) :
    (∀ i rest, get_tagged_instances world (launcherFilters s) = i :: rest →
      create_launcher_instance cfg world s ami itype ip1 pip1 = (i, world, [])) ∧
    launcherCount
      (create_launcher_instance cfg
        (create_launcher_instance cfg world s ami itype ip1 pip1).2.1
        s ami itype ip2 pip2).2.1 s = 1 := by
  rcases hg : get_tagged_instances world (launcherFilters s) with _ | ⟨i, rest⟩
  · refine ⟨?_, ?_⟩
    · intro i rest h'
      simp at h'
    · have hmatch : matchesFilters (launcherFilters s)
          (launcherTagged cfg s ip1 pip1) = true := by
        simp [matchesFilters, launcherFilters, launcherTagged, List.lookup]
      have hgf : world.filter (matchesFilters (launcherFilters s)) = [] := hg
      have h1 : get_tagged_instances (world ++ [launcherTagged cfg s ip1 pip1])
          (launcherFilters s) = [launcherTagged cfg s ip1 pip1] := by
        simp only [get_tagged_instances, List.filter_append, hgf]
        simp [hmatch]
      have hc1 : (create_launcher_instance cfg world s ami itype ip1 pip1).2.1 =
          world ++ [launcherTagged cfg s ip1 pip1] := by
        simp [create_launcher_instance, hg]
      rw [hc1]
      have hc2 : create_launcher_instance cfg (world ++ [launcherTagged cfg s ip1 pip1])
          s ami itype ip2 pip2 =
          (launcherTagged cfg s ip1 pip1, world ++ [launcherTagged cfg s ip1 pip1], []) := by
        simp [create_launcher_instance, h1]
      rw [hc2]
      simp [launcherCount, h1]
  · have hr : rest = [] := by
      have h2 := h
      simp [launcherCount, hg] at h2
      exact h2
    subst hr
    refine ⟨?_, ?_⟩
    · intro i' rest' h'
      injection h' with hA hB
      subst hA
      simp [create_launcher_instance, hg]
    · simp [create_launcher_instance, hg, launcherCount]

/-- Witness for C1 at a concrete input: the empty world for stack `demo` has at
most one launcher; after two invocations exactly one tagged launcher exists. -/
theorem create_launcher_instance_idempotent_witness :
    launcherCount [] "demo" ≤ 1 ∧
    ((∀ i rest, get_tagged_instances [] (launcherFilters "demo") = i :: rest →
      create_launcher_instance exampleConfig [] "demo" "ami-1" "m3" "54.1.1.1" "10.1.1.1" =
        (i, [], [])) ∧
    launcherCount
      (create_launcher_instance exampleConfig
        (create_launcher_instance exampleConfig [] "demo" "ami-1" "m3" "54.1.1.1" "10.1.1.1").2.1
        "demo" "ami-1" "m3" "54.2.2.2" "10.2.2.2").2.1 "demo" = 1) :=
  ⟨by decide,
   create_launcher_instance_idempotent exampleConfig [] "demo" "ami-1" "m3"
     "54.1.1.1" "10.1.1.1" "54.2.2.2" "10.2.2.2" (by decide)⟩

/-- C9: when a tagged launcher already exists, `create_launcher_instance` is
read-only: it returns the first tagged match, leaves the world unchanged, and
its effect trace is empty — no instance launch, no tag write, no state polling,
no remote installation of the director client or private key. -/
theorem create_launcher_instance_reuse_read_only (cfg : Config) (world : List Instance)
    (s ami itype ip pip : String) (i : Instance) (rest : List Instance)
    (h : get_tagged_instances world (launcherFilters s) = i :: rest) :
    create_launcher_instance cfg world s ami itype ip pip = (i, world, []) := by
  simp [create_launcher_instance, h]

/-- Witness for C9 at a concrete input: a world holding one tagged launcher for
stack `demo`; creation returns it with no effects. -/
theorem create_launcher_instance_reuse_read_only_witness :
    create_launcher_instance exampleConfig [exampleLauncher] "demo" "ami-1" "m3"
      "54.9.9.9" "10.9.9.9" = (exampleLauncher, [exampleLauncher], []) :=
  create_launcher_instance_reuse_read_only exampleConfig [exampleLauncher] "demo"
    "ami-1" "m3" "54.9.9.9" "10.9.9.9" exampleLauncher [] (by decide)

/-- C3: `login` with a node value outside `master`, `manager`, `launcher`
raises the named `EggoError` and performs no remote action (the error outcome
carries no effects); for each of the three valid values it resolves the
correspondingly tagged instance and opens a shell on it. -/
theorem login_node_validation (world : List Instance) (s node : String) :
    (node ≠ "master" → node ≠ "manager" → node ≠ "launcher" →
      login world s node =
        LoginResult.eggoError ("\"" ++ node ++ "\" is not a valid node type")) ∧
    (∀ i, get_master_instance world s = some i →
      login world s "master" =
        LoginResult.shell [Effect.fabricExecute "open_shell" false [i.ip_address]]) ∧
    (∀ i, get_manager_instance world s = some i →
      login world s "manager" =
        LoginResult.shell [Effect.fabricExecute "open_shell" false [i.ip_address]]) ∧
    (∀ i, get_launcher_instance world s = some i →
      login world s "launcher" =
        LoginResult.shell [Effect.fabricExecute "open_shell" false [i.ip_address]]) := by
  refine ⟨?_, ?_, ?_, ?_⟩
  · intro h1 h2 h3
    simp [login, h1, h2, h3]
  · intro i hi
    simp [login, hi]
  · intro i hi
    simp [login, hi]
  · intro i hi
    simp [login, hi]

/-- Witness for C3 at concrete inputs: node `worker` is rejected with the
named error; node `manager` opens a shell on the tagged manager. -/
theorem login_node_validation_witness :
    login [exampleManager] "demo" "worker" =
      LoginResult.eggoError ("\"" ++ "worker" ++ "\" is not a valid node type") ∧
    login [exampleManager] "demo" "manager" =
      LoginResult.shell [Effect.fabricExecute "open_shell" false
        [exampleManager.ip_address]] :=
  ⟨(login_node_validation [exampleManager] "demo" "worker").1
      (by decide) (by decide) (by decide),
   (login_node_validation [exampleManager] "demo" "manager").2.2.1
      exampleManager (by decide)⟩

/-- C5: `adjust_yarn_memory_limits` selects the YARN service and, by
first-match on role type, one RESOURCEMANAGER and one NODEMANAGER role config
group; it sets both memory limits to `floor(totalPhysMemBytes / 1024 / 1024)`
megabytes and both vcore limits to the first host's core count, deploys client
configuration (awaited), and restarts the cluster (awaited) if and only if the
restart flag is set. -/
theorem adjust_yarn_memory_limits_updates (st : CmState) (restart : Bool)
    (cluster : CmCluster) (host : CmHost) (yarn : CmService)
    (rm_cg nm_cg : RoleConfigGroup)
    (hc : st.clusters.head? = some cluster)
    (hh : st.hosts.head? = some host)
    (hy : (cluster.services.filter (fun x => x.type == "YARN")).head? = some yarn)
    (hrm : (yarn.role_config_groups.filter
      (fun x => x.roleType == "RESOURCEMANAGER")).head? = some rm_cg)
    (hnm : (yarn.role_config_groups.filter
      (fun x => x.roleType == "NODEMANAGER")).head? = some nm_cg) :
    adjust_yarn_memory_limits st restart =
      some ([Effect.cmUpdateConfig rm_cg
               [("yarn_scheduler_maximum_allocation_mb",
                 host.totalPhysMemBytes / 1024 / 1024),
                ("yarn_scheduler_maximum_allocation_vcores", host.numCores)],
             Effect.cmUpdateConfig nm_cg
               [("yarn_nodemanager_resource_memory_mb",
                 host.totalPhysMemBytes / 1024 / 1024),
                ("yarn_nodemanager_resource_cpu_vcores", host.numCores)],
             Effect.cmDeployClientConfigWait] ++
            (if restart then [Effect.cmRestartClusterWait] else [])) ∧
    (∀ tr, adjust_yarn_memory_limits st restart = some tr →
      (Effect.cmRestartClusterWait ∈ tr ↔ restart = true)) := by
  have hmain : adjust_yarn_memory_limits st restart =
      some ([Effect.cmUpdateConfig rm_cg
               [("yarn_scheduler_maximum_allocation_mb",
                 host.totalPhysMemBytes / 1024 / 1024),
                ("yarn_scheduler_maximum_allocation_vcores", host.numCores)],
             Effect.cmUpdateConfig nm_cg
               [("yarn_nodemanager_resource_memory_mb",
                 host.totalPhysMemBytes / 1024 / 1024),
                ("yarn_nodemanager_resource_cpu_vcores", host.numCores)],
             Effect.cmDeployClientConfigWait] ++
            (if restart then [Effect.cmRestartClusterWait] else [])) := by
    simp [adjust_yarn_memory_limits, hc, hh, hy, hrm, hnm, memLimitMb]
  refine ⟨hmain, ?_⟩
  intro tr htr
  rw [hmain] at htr
  cases htr
  cases restart <;> simp

/-- Witness for C5 at the concrete CM state with the restart flag set: the
memory limit renders as 4096 MB, the vcore limit as 4, and the trace ends with
the awaited deploy and restart. -/
theorem adjust_yarn_memory_limits_updates_witness :
    adjust_yarn_memory_limits exampleCmState true =
      some ([Effect.cmUpdateConfig
               { name := "yarn-RESOURCEMANAGER-BASE", roleType := "RESOURCEMANAGER" }
               [("yarn_scheduler_maximum_allocation_mb", 4096),
                ("yarn_scheduler_maximum_allocation_vcores", 4)],
             Effect.cmUpdateConfig
               { name := "yarn-NODEMANAGER-BASE", roleType := "NODEMANAGER" }
               [("yarn_nodemanager_resource_memory_mb", 4096),
                ("yarn_nodemanager_resource_cpu_vcores", 4)],
             Effect.cmDeployClientConfigWait] ++
            (if true then [Effect.cmRestartClusterWait] else [])) ∧
    (∀ tr, adjust_yarn_memory_limits exampleCmState true = some tr →
      (Effect.cmRestartClusterWait ∈ tr ↔ true = true)) :=
  adjust_yarn_memory_limits_updates exampleCmState true
    { services :=
      [{ type := "HDFS", role_config_groups := [] },
       { type := "YARN", role_config_groups :=
         [{ name := "yarn-RESOURCEMANAGER-BASE", roleType := "RESOURCEMANAGER" },
          { name := "yarn-NODEMANAGER-BASE", roleType := "NODEMANAGER" }] }] }
    { totalPhysMemBytes := 4294967296, numCores := 4 }
    { type := "YARN", role_config_groups :=
      [{ name := "yarn-RESOURCEMANAGER-BASE", roleType := "RESOURCEMANAGER" },
       { name := "yarn-NODEMANAGER-BASE", roleType := "NODEMANAGER" }] }
    { name := "yarn-RESOURCEMANAGER-BASE", roleType := "RESOURCEMANAGER" }
    { name := "yarn-NODEMANAGER-BASE", roleType := "NODEMANAGER" }
    (by decide) (by decide) (by decide) (by decide) (by decide)

/-- C6: `install_java_8` performs its steps in a fixed sequential order: stop
the management service (awaited), stop the cluster (awaited), stop agents on
all cluster hosts, stop the manager server, remove old JDKs and install JDK 8
on all cluster hosts in parallel, start the server, start the agents, start
the cluster (awaited), start the management service (awaited) — with the two
CM phases bracketed by the scoped tunnel. -/
theorem install_java_8_fixed_order (world : List Instance) (s : String)
    (manager master : Instance)
    (hm : get_manager_instance world s = some manager)
    (hM : get_master_instance world s = some master) :
    install_java_8 world s =
      some [cm_tunnel_open manager,
            Effect.cmCommandWait "stop_mgmt_service",
            Effect.cmCommandWait "stop_cluster",
            cm_tunnel_close,
            Effect.fabricExecute "stop_cm_agents" true
              ((get_worker_instances world s ++ [manager, master]).map Instance.ip_address),
            Effect.fabricExecute "stop_cm_server" false [manager.ip_address],
            Effect.fabricExecute "swap_jdks" true
              ((get_worker_instances world s ++ [manager, master]).map Instance.ip_address),
            Effect.fabricExecute "start_cm_server" false [manager.ip_address],
            Effect.fabricExecute "start_cm_agents" true
              ((get_worker_instances world s ++ [manager, master]).map Instance.ip_address),
            cm_tunnel_open manager,
            Effect.cmCommandWait "start_cluster",
            Effect.cmCommandWait "start_mgmt_service",
            cm_tunnel_close] := by
  simp [install_java_8, hm, hM]

/-- Witness for C6 at a concrete world with one worker, one manager, one
master and a launcher tagged for stack `demo`. -/
theorem install_java_8_fixed_order_witness :
    install_java_8 [exampleLauncher, exampleManager, exampleMaster, exampleWorker] "demo" =
      some [cm_tunnel_open exampleManager,
            Effect.cmCommandWait "stop_mgmt_service",
            Effect.cmCommandWait "stop_cluster",
            cm_tunnel_close,
            Effect.fabricExecute "stop_cm_agents" true
              ((get_worker_instances
                  [exampleLauncher, exampleManager, exampleMaster, exampleWorker] "demo" ++
                [exampleManager, exampleMaster]).map Instance.ip_address),
            Effect.fabricExecute "stop_cm_server" false [exampleManager.ip_address],
            Effect.fabricExecute "swap_jdks" true
              ((get_worker_instances
                  [exampleLauncher, exampleManager, exampleMaster, exampleWorker] "demo" ++
                [exampleManager, exampleMaster]).map Instance.ip_address),
            Effect.fabricExecute "start_cm_server" false [exampleManager.ip_address],
            Effect.fabricExecute "start_cm_agents" true
              ((get_worker_instances
                  [exampleLauncher, exampleManager, exampleMaster, exampleWorker] "demo" ++
                [exampleManager, exampleMaster]).map Instance.ip_address),
            cm_tunnel_open exampleManager,
            Effect.cmCommandWait "start_cluster",
            Effect.cmCommandWait "start_mgmt_service",
            cm_tunnel_close] :=
  install_java_8_fixed_order [exampleLauncher, exampleManager, exampleMaster, exampleWorker]
    "demo" exampleManager exampleMaster (by decide) (by decide)

/-- C7: `teardown` executes exactly three steps in order — the auto-confirmed
director terminate command on the launcher, termination of the launcher
instance polled until the `terminated` state, then deletion of the network
stack; if step 1 fails, steps 2 and 3 are not reached. -/
theorem teardown_three_steps (world : List Instance) (s : String) (launcher : Instance)
    (h : get_launcher_instance world s = some launcher) :
    teardown world s true =
      some ([Effect.fabricExecute "run_director_terminate" false [launcher.ip_address],
             Effect.terminateInstance launcher.ip_address,
             Effect.waitForInstanceState launcher.ip_address "terminated",
             Effect.deleteStack s], true) ∧
    teardown world s false =
      some ([Effect.fabricExecute "run_director_terminate" false [launcher.ip_address]],
            false) := by
  constructor <;> simp [teardown, terminate_launcher_instance, h]

/-- Witness for C7 at a concrete world holding a tagged launcher for `demo`. -/
theorem teardown_three_steps_witness :
    teardown [exampleLauncher] "demo" true =
      some ([Effect.fabricExecute "run_director_terminate" false
               [exampleLauncher.ip_address],
             Effect.terminateInstance exampleLauncher.ip_address,
             Effect.waitForInstanceState exampleLauncher.ip_address "terminated",
             Effect.deleteStack "demo"], true) ∧
    teardown [exampleLauncher] "demo" false =
      some ([Effect.fabricExecute "run_director_terminate" false
               [exampleLauncher.ip_address]], false) :=
  teardown_three_steps [exampleLauncher] "demo" exampleLauncher (by decide)

/-- C8: `web_proxy` opens three tunnels (one to the manager, two to the
master), blocks waiting on the last opened tunnel, and terminates every tunnel
it opened on every exit path — `wait_raised` ranges over both the normal and
the exceptional/interrupted end of the wait, and the trace ends with the three
terminations either way. -/
theorem web_proxy_closes_all_tunnels (world : List Instance) (s : String)
    (manager master : Instance) (wait_raised : Bool)
    (hm : get_manager_instance world s = some manager)
    (hM : get_master_instance world s = some master) :
    web_proxy world s wait_raised =
      some [Effect.openTunnel manager.ip_address manager.private_ip_address 7180 7180,
            Effect.openTunnel master.ip_address master.private_ip_address 8088 8088,
            Effect.openTunnel master.ip_address master.private_ip_address 19888 19888,
            Effect.tunnelWait 19888 wait_raised,
            Effect.tunnelTerminate 7180,
            Effect.tunnelTerminate 8088,
            Effect.tunnelTerminate 19888] := by
  simp [web_proxy, hm, hM]

/-- Witness for C8 at a concrete world, on the interrupted exit path. -/
theorem web_proxy_closes_all_tunnels_witness :
    web_proxy [exampleManager, exampleMaster] "demo" true =
      some [Effect.openTunnel exampleManager.ip_address
              exampleManager.private_ip_address 7180 7180,
            Effect.openTunnel exampleMaster.ip_address
              exampleMaster.private_ip_address 8088 8088,
            Effect.openTunnel exampleMaster.ip_address
              exampleMaster.private_ip_address 19888 19888,
            Effect.tunnelWait 19888 true,
            Effect.tunnelTerminate 7180,
            Effect.tunnelTerminate 8088,
            Effect.tunnelTerminate 19888] :=
  web_proxy_closes_all_tunnels [exampleManager, exampleMaster] "demo"
    exampleManager exampleMaster true (by decide) (by decide)

/-- An instance found by a `(eggo_stack_name, eggo_node_type)` tag query
carries the queried node type (tags are a map, so the lookup is single-valued). -/
theorem node_type_of_mem_tagged (world : List Instance) (s nt : String) (i : Instance)
    (h : i ∈ get_tagged_instances world [("eggo_stack_name", s), ("eggo_node_type", nt)]) :
    i.tags.lookup "eggo_node_type" = some nt := by
  rw [get_tagged_instances] at h
  have h2 := (List.mem_filter.mp h).2
  simp [matchesFilters] at h2
  exact h2.2

/-- C10: the cluster host set targeted by every fan-out step of
`install_java_8` is exactly the stack's worker instances plus the manager and
master; any instance tagged as the launcher is not among them, and every
remote-execution step of the trace targets either that cluster host set (the
parallel fan-outs) or the manager alone (the server stop/start), so the
launcher is never targeted. -/
theorem install_java_8_never_targets_launcher (world : List Instance) (s : String)
    (manager master : Instance)
    (hm : get_manager_instance world s = some manager)
    (hM : get_master_instance world s = some master) :
    install_java_8_cluster_instances world s =
      some (get_worker_instances world s ++ [manager, master]) ∧
    (∀ laun, laun ∈ get_tagged_instances world (launcherFilters s) →
      laun ∉ get_worker_instances world s ++ [manager, master]) ∧
    (∀ tr, install_java_8 world s = some tr →
      ∀ op par hosts, Effect.fabricExecute op par hosts ∈ tr →
        (par = true →
          hosts = (get_worker_instances world s ++ [manager, master]).map
            Instance.ip_address) ∧
        (par = false → hosts = [manager.ip_address])) := by
  refine ⟨by simp [install_java_8_cluster_instances, hm, hM], ?_, ?_⟩
  · intro laun hlaun hmem
    have hlt : laun.tags.lookup "eggo_node_type" = some "launcher" :=
      node_type_of_mem_tagged world s "launcher" laun hlaun
    rcases List.mem_append.mp hmem with hw | hmm
    · have hwt : laun.tags.lookup "eggo_node_type" = some "worker" :=
        node_type_of_mem_tagged world s "worker" laun hw
      rw [hlt] at hwt
      simp at hwt
    · rcases List.mem_cons.mp hmm with rfl | hmm2
      · have hmgr : laun ∈ get_tagged_instances world (managerFilters s) :=
          List.mem_of_mem_head? (by rw [← get_manager_instance]; simp [hm])
        have hmt : laun.tags.lookup "eggo_node_type" = some "manager" :=
          node_type_of_mem_tagged world s "manager" laun hmgr
        rw [hlt] at hmt
        simp at hmt
      · rcases List.mem_singleton.mp hmm2 with rfl
        have hmst : laun ∈ get_tagged_instances world (masterFilters s) :=
          List.mem_of_mem_head? (by rw [← get_master_instance]; simp [hM])
        have hmt : laun.tags.lookup "eggo_node_type" = some "master" :=
          node_type_of_mem_tagged world s "master" laun hmst
        rw [hlt] at hmt
        simp at hmt
  · intro tr htr op par hosts hmem
    simp only [install_java_8, hm, hM, Option.some.injEq] at htr
    subst htr
    simp [cm_tunnel_open, cm_tunnel_close] at hmem
    rcases hmem with ⟨rfl, rfl, rfl⟩ | ⟨rfl, rfl, rfl⟩ | ⟨rfl, rfl, rfl⟩ |
      ⟨rfl, rfl, rfl⟩ | ⟨rfl, rfl, rfl⟩ <;>
      refine ⟨?_, ?_⟩ <;> intro hp <;> simp_all

/-- Witness for C10 at a concrete world with a launcher, manager, master and
worker tagged for stack `demo`. -/
theorem install_java_8_never_targets_launcher_witness :
    install_java_8_cluster_instances
        [exampleLauncher, exampleManager, exampleMaster, exampleWorker] "demo" =
      some (get_worker_instances
          [exampleLauncher, exampleManager, exampleMaster, exampleWorker] "demo" ++
        [exampleManager, exampleMaster]) ∧
    (∀ laun, laun ∈ get_tagged_instances
        [exampleLauncher, exampleManager, exampleMaster, exampleWorker]
        (launcherFilters "demo") →
      laun ∉ get_worker_instances
          [exampleLauncher, exampleManager, exampleMaster, exampleWorker] "demo" ++
        [exampleManager, exampleMaster]) ∧
    (∀ tr, install_java_8
        [exampleLauncher, exampleManager, exampleMaster, exampleWorker] "demo" = some tr →
      ∀ op par hosts, Effect.fabricExecute op par hosts ∈ tr →
        (par = true →
          hosts = (get_worker_instances
              [exampleLauncher, exampleManager, exampleMaster, exampleWorker] "demo" ++
            [exampleManager, exampleMaster]).map Instance.ip_address) ∧
        (par = false → hosts = [exampleManager.ip_address])) :=
  install_java_8_never_targets_launcher
    [exampleLauncher, exampleManager, exampleMaster, exampleWorker] "demo"
    exampleManager exampleMaster (by decide) (by decide)

/-- Interpolation steps over an ordinary character. -/
theorem pyInterpolate_cons (params : List (String × String)) (c : Char) (rest : List Char)
    (hc : c ≠ '%') :
    pyInterpolate params (c :: rest) =
      match pyInterpolate params rest with
      | none => none
      | some t => some (c :: t) := by
  rw [pyInterpolate.eq_def]
  simp [hc]

/-- Interpolation passes a percent-free literal block through verbatim. -/
theorem pyInterpolate_lit (params : List (String × String)) (l cs : List Char)
    (hl : '%' ∉ l) :
    pyInterpolate params (l ++ cs) = (pyInterpolate params cs).map (fun t => l ++ t) := by
  induction l with
  | nil => cases h : pyInterpolate params cs <;> simp [h]
  | cons c l ih =>
    have hc : c ≠ '%' := fun h => hl (by simp [h])
    have hl2 : '%' ∉ l := fun h => hl (List.mem_cons_of_mem _ h)
    rw [List.cons_append, pyInterpolate_cons params c (l ++ cs) hc, ih hl2]
    cases pyInterpolate params cs <;> simp

/-- The key scanner accumulates a non-`)` character. -/
theorem pyInterpolateKey_cons (params : List (String × String)) (acc : List Char)
    (c : Char) (rest : List Char) (hc : c ≠ ')') :
    pyInterpolateKey params acc (c :: rest) = pyInterpolateKey params (acc ++ [c]) rest := by
  rw [pyInterpolateKey.eq_def]
  simp [hc]

/-- The key scanner at `)s` substitutes the looked-up value and resumes. -/
theorem pyInterpolateKey_close (params : List (String × String)) (acc : List Char)
    (rest : List Char) :
    pyInterpolateKey params acc (')' :: 's' :: rest) =
      match params.lookup (String.mk acc) with
      | none => none
      | some v =>
        match pyInterpolate params rest with
        | none => none
        | some t => some (v.toList ++ t) := by
  rw [pyInterpolateKey.eq_def]
  simp

/-- The key scanner over a full `)`-free key followed by `)s`. -/
theorem pyInterpolateKey_key (params : List (String × String)) (k rest : List Char)
    (hk : ')' ∉ k) :
    ∀ acc, pyInterpolateKey params acc (k ++ ')' :: 's' :: rest) =
      match params.lookup (String.mk (acc ++ k)) with
      | none => none
      | some v =>
        match pyInterpolate params rest with
        | none => none
        | some t => some (v.toList ++ t) := by
  induction k with
  | nil =>
    intro acc
    simpa using pyInterpolateKey_close params acc rest
  | cons c k ih =>
    intro acc
    have hc : c ≠ ')' := fun h => hk (by simp [h])
    have hk2 : ')' ∉ k := fun h => hk (List.mem_cons_of_mem _ h)
    rw [List.cons_append, pyInterpolateKey_cons params acc c _ hc, ih hk2 (acc ++ [c])]
    simp

/-- A `%(` opener hands the remainder to the key scanner. -/
theorem pyInterpolate_hole (params : List (String × String)) (cs : List Char) :
    pyInterpolate params ('%' :: '(' :: cs) = pyInterpolateKey params [] cs := by
  rw [pyInterpolate.eq_def]
  simp

theorem string_mk_toList (s : String) : String.mk s.toList = s := rfl

/-- On the text of a structured template whose literals are percent-free and
whose keys are `)`-free, the Python interpolation agrees with the
specification-level hole-by-hole substitution. -/
theorem pyInterpolate_tmplChars (params : List (String × String)) (t : List TPart)
    (hlit : ∀ l, TPart.lit l ∈ t → '%' ∉ l)
    (hhole : ∀ k, TPart.hole k ∈ t → ')' ∉ k.toList) :
    pyInterpolate params (tmplChars t) = renderParts params t := by
  induction t with
  | nil => simp [tmplChars, renderParts, pyInterpolate]
  | cons p t ih =>
    have ih2 := ih (fun l hl => hlit l (List.mem_cons_of_mem _ hl))
      (fun k hk => hhole k (List.mem_cons_of_mem _ hk))
    cases p with
    | lit l =>
      have hl : '%' ∉ l := hlit l (List.mem_cons_self _ _)
      rw [tmplChars, pyInterpolate_lit params l _ hl, ih2, renderParts]
      cases renderParts params t <;> simp
    | hole k =>
      have hk : ')' ∉ k.toList := hhole k (List.mem_cons_self _ _)
      rw [tmplChars, pyInterpolate_hole, pyInterpolateKey_key params k.toList _ hk []]
      rw [List.nil_append, string_mk_toList, ih2, renderParts]

theorem mem_of_lookup_eq_some {l : List (String × String)} {k : String} {v : String}
    (h : l.lookup k = some v) : (k, v) ∈ l := by
  rcases List.lookup_eq_some_iff.mp h with ⟨l₁, l₂, rfl, -⟩
  simp

theorem lookup_of_key_mem {l : List (String × String)} {k : String}
    (h : k ∈ l.map Prod.fst) : ∃ v, l.lookup k = some v := by
  have h2 : (List.lookup k l).isSome = true := by
    apply List.lookup_isSome_iff.mpr
    rcases List.mem_map.mp h with ⟨p, hp, rfl⟩
    exact ⟨p, hp, by simp⟩
  exact Option.isSome_iff_exists.mp h2

/-- Rendering succeeds when every hole's key is among the parameter keys. -/
theorem renderParts_isSome (params : List (String × String)) (t : List TPart)
    (hhole : ∀ k, TPart.hole k ∈ t → k ∈ params.map Prod.fst) :
    ∃ r, renderParts params t = some r := by
  induction t with
  | nil => exact ⟨[], rfl⟩
  | cons p t ih =>
    rcases ih (fun k hk => hhole k (List.mem_cons_of_mem _ hk)) with ⟨r, hr⟩
    cases p with
    | lit l => exact ⟨l ++ r, by rw [renderParts, hr]⟩
    | hole k =>
      rcases lookup_of_key_mem (hhole k (List.mem_cons_self _ _)) with ⟨v, hv⟩
      exact ⟨v.toList ++ r, by rw [renderParts, hv, hr]⟩

/-- The rendered output contains no percent character — in particular no
residual placeholder syntax — when literals and parameter values are
percent-free. -/
theorem renderParts_no_percent (params : List (String × String)) (t : List TPart)
    (hlit : ∀ l, TPart.lit l ∈ t → '%' ∉ l)
    (hval : ∀ kv, kv ∈ params → '%' ∉ kv.2.toList) :
    ∀ r, renderParts params t = some r → '%' ∉ r := by
  induction t with
  | nil =>
    intro r hr
    rw [renderParts] at hr
    cases hr
    simp
  | cons p t ih =>
    have ih2 := ih (fun l hl => hlit l (List.mem_cons_of_mem _ hl))
    intro r hr
    cases p with
    | lit l =>
      rw [renderParts] at hr
      cases hrt : renderParts params t with
      | none => rw [hrt] at hr; cases hr
      | some r2 =>
        rw [hrt] at hr
        cases hr
        intro hmem
        rcases List.mem_append.mp hmem with h1 | h2
        · exact hlit l (List.mem_cons_self _ _) h1
        · exact ih2 r2 hrt h2
    | hole k =>
      rw [renderParts] at hr
      cases hv : params.lookup k with
      | none => rw [hv] at hr; cases hr
      | some v =>
        rw [hv] at hr
        cases hrt : renderParts params t with
        | none => rw [hrt] at hr; cases hr
        | some r2 =>
          rw [hrt] at hr
          cases hr
          intro hmem
          rcases List.mem_append.mp hmem with h1 | h2
          · exact hval (k, v) (mem_of_lookup_eq_some hv) h1
          · exact ih2 r2 hrt h2

/-- C4: bootstrap template rendering substitutes the eleven named placeholders
verbatim.  For every template whose placeholders are among the eleven bootstrap
parameter names (literals and parameter values percent-free), interpolation
succeeds, `run_director_bootstrap` uploads the rendered body and runs the
bootstrap command, the rendered output carries no remaining placeholder syntax
(no percent character at all), and each placeholder position holds the exact
corresponding parameter value (the body is the hole-by-hole substitution
`renderParts`). -/
theorem run_director_bootstrap_renders_placeholders (cfg : Config)
    (region stack subnetId sgIds cluster_ami : String) (num_workers : Nat)
    (worker_instance_type : String) (t : List TPart)
    (hlit : ∀ l, TPart.lit l ∈ t → '%' ∉ l)
    (hhole : ∀ k, TPart.hole k ∈ t →
      k ∈ (bootstrapParams cfg region stack subnetId sgIds cluster_ami
            num_workers worker_instance_type).map Prod.fst)
    (hval : ∀ kv, kv ∈ bootstrapParams cfg region stack subnetId sgIds cluster_ami
            num_workers worker_instance_type → '%' ∉ kv.2.toList) :
    ∃ body,
      renderParts (bootstrapParams cfg region stack subnetId sgIds cluster_ami
        num_workers worker_instance_type) t = some body ∧
      run_director_bootstrap cfg region stack subnetId sgIds cluster_ami num_workers
        worker_instance_type (tmplChars t) =
        some (body, [Effect.putFile "director.conf",
                     Effect.runCmd "cloudera-director bootstrap director.conf"]) ∧
      '%' ∉ body := by
  have hnoparen : ∀ k, TPart.hole k ∈ t → ')' ∉ k.toList := by
    intro k hk
    have h2 := hhole k hk
    simp [bootstrapParams] at h2
    rcases h2 with rfl | rfl | rfl | rfl | rfl | rfl | rfl | rfl | rfl | rfl | rfl <;>
      decide
  rcases renderParts_isSome (bootstrapParams cfg region stack subnetId sgIds cluster_ami
    num_workers worker_instance_type) t hhole with ⟨body, hbody⟩
  have hpi : pyInterpolate (bootstrapParams cfg region stack subnetId sgIds cluster_ami
      num_workers worker_instance_type) (tmplChars t) = some body := by
    rw [pyInterpolate_tmplChars _ t hlit hnoparen]
    exact hbody
  exact ⟨body, hbody, by simp [run_director_bootstrap, hpi],
    renderParts_no_percent _ t hlit hval body hbody⟩

/-- Witness for C4 at a concrete template and parameter set: `num_workers=5`
renders as the literal `5` in place of its placeholder. -/
theorem run_director_bootstrap_renders_placeholders_witness :
    ∃ body,
      renderParts (bootstrapParams exampleConfig "us-east-1" "demo" "subnet-1" "sg-1"
        "ami-2" 5 "m3.xlarge") exampleTemplate = some body ∧
      run_director_bootstrap exampleConfig "us-east-1" "demo" "subnet-1" "sg-1" "ami-2" 5
        "m3.xlarge" (tmplChars exampleTemplate) =
        some (body, [Effect.putFile "director.conf",
                     Effect.runCmd "cloudera-director bootstrap director.conf"]) ∧
      '%' ∉ body :=
  run_director_bootstrap_renders_placeholders exampleConfig "us-east-1" "demo"
    "subnet-1" "sg-1" "ami-2" 5 "m3.xlarge" exampleTemplate
    (by
      intro l hl
      simp [exampleTemplate] at hl
      rcases hl with rfl | rfl <;> decide)
    (by
      intro k hk
      simp [exampleTemplate] at hk
      rcases hk with rfl | rfl <;> decide)
    (by
      intro kv hkv
      simp [bootstrapParams, exampleConfig] at hkv
      rcases hkv with rfl | rfl | rfl | rfl | rfl | rfl | rfl | rfl | rfl | rfl | rfl <;>
        decide)

end Eggo
